import Mathlib

/-!
Shallow embedding of `src/AI_logic/respond.py` (TinderGPT): the staged
decision pipeline `respond_to_girl`, its retry wrapper `invoke_chain`, the
Commander shape selector `commander_chain`, and the external collaborators
(state store, rule store, notifications) that the orchestrator drives.

External model-backed chains (Analyzer, Commander, Writer) are modelled as
oracles supplied by an `Env` record: each invocation either returns a
structured output record or fails with a `ChainError` (format or transport
failure), mirroring the fact that a `chain.invoke` call in the source can
raise.  The orchestrator's observable behaviour is a trace of external
calls, the final state of the store, and a result that is either a raised
error or the returned value.
-/

namespace TinderGPT

/-- Output shape of the Analyzer chain: the `AnalyzerOutput` pydantic model
of `respond.py` (fields `summary`, `future_step`, `contact`). -/
structure AnalyzerOutput where
  summary : String
  future_step : String
  contact : String
  deriving Repr, DecidableEq

/-- Runtime content common to `CommanderStep1Output` and
`CommanderStep2Output` in `respond.py`: both declare exactly the fields
`reasoning : str` and `tags : list`; they differ only in which tag
vocabulary their `tags` field description allows. -/
structure CommanderOutput where
  reasoning : String
  tags : List String
  deriving Repr, DecidableEq

/-- Output shape of the Writer step: `WriterOutput` in `respond.py`
(fields `reasoning`, `message`), where `message` is an ordered sequence of
message strings. -/
structure WriterOutput where
  reasoning : String
  message : List String
  deriving Repr, DecidableEq

/-- The two Commander output shapes, discriminated by pipeline phase:
`step1` is the `CommanderStep1Output` schema, `step2` the
`CommanderStep2Output` schema. -/
inductive CommanderShape where
  | step1
  | step2
  deriving Repr, DecidableEq

/-- Tag vocabulary attached to each Commander shape, read off the `tags`
field descriptions of `CommanderStep1Output` and `CommanderStep2Output`. -/
def shape_tag_vocabulary : CommanderShape → List String
  | .step1 => ["Bond", "Attractive guy image", "Storytelling"]
  | .step2 => ["Suggesting meeting", "Comfort", "Providing meeting details", "Ask for contact"]

/-- `commander_chain(future_step)` of `respond.py`: selects the step1 schema
exactly when `future_step == 'step1'`, and the step2 schema otherwise. -/
def commander_chain (future_step : String) : CommanderShape :=
  if future_step = "step1" then .step1 else .step2

/-- A failure raised by one underlying chain invocation: the model output
could not be parsed into the requested shape, or the transport/rate-limit
layer failed.  Both are ordinary exceptions to the caller. -/
inductive ChainError where
  | formatError : String → ChainError
  | transportError : String → ChainError
  deriving Repr, DecidableEq

/-- The error with which `invoke_chain` fails once its retries are
exhausted: tenacity raises a retry-exhaustion error wrapping the last
underlying exception. -/
inductive InvokeError where
  | exhausted : ChainError → InvokeError
  deriving Repr, DecidableEq

/-- Observable behaviour of one `invoke_chain` call: how many attempts were
made, the errors printed by the `except` block (one per failed attempt),
the fixed waiting periods inserted between attempts, and the final
outcome. -/
structure InvokeTrace (α : Type) where
  attemptsMade : Nat
  loggedErrors : List ChainError
  delays : List Nat
  outcome : Except InvokeError α
  deriving Repr

/-- Retry loop of tenacity's `@retry(stop=stop_after_attempt(n),
wait=wait_fixed(w))` around a fallible call: `fuel` is the number of
attempts still allowed, `attemptIdx` numbers the attempts from 0.  A
successful attempt returns at once; a failed attempt is logged, and either
the loop stops (no attempts left, raising the exhaustion error that wraps
the last exception) or it waits `wait` time units and tries again.  The
`fuel = 0` base case is unreachable from `invoke_chain`, which starts with
positive fuel. -/
def retry_run {α : Type} (oracle : Nat → Except ChainError α) (wait : Nat) :
    Nat → Nat → InvokeTrace α
  | _, 0 => ⟨0, [], [], .error (.exhausted (.transportError "no attempt allowed"))⟩
  | attemptIdx, fuel + 1 =>
    match oracle attemptIdx with
    | .ok a => ⟨1, [], [], .ok a⟩
    | .error e =>
      if fuel = 0 then
        ⟨1, [e], [], .error (.exhausted e)⟩
      else
        let rest := retry_run oracle wait (attemptIdx + 1) fuel
        ⟨rest.attemptsMade + 1, e :: rest.loggedErrors, wait :: rest.delays, rest.outcome⟩

/-- `invoke_chain` of `respond.py`: the chain call wrapped in
`@retry(stop=stop_after_attempt(3), wait=wait_fixed(90))` — at most 3
attempts in total with a fixed delay of 90 time units between attempts.
The body prints the error of every failed attempt and re-raises it for
tenacity to catch. -/
def invoke_chain {α : Type} (oracle : Nat → Except ChainError α) : InvokeTrace α :=
  retry_run oracle 90 0 3

end TinderGPT

namespace TinderGPT

/-- A stored per-contact record: the summary text and the suspended
("not to rise") flag. -/
structure ContactRecord where
  summary : String
  suspended : Bool
  deriving Repr, DecidableEq

/-- The external state store, keyed by the contact identifier. -/
def Store : Type := List (String × ContactRecord)

/-- Modelled from the spec: `get_record` lives in `AI_logic/airtable`,
which is not under `src/`; per §6 it returns the stored summary text for
the key, blank if absent. -/
def get_record (store : Store) (key : String) : String :=
  match store.lookup key with
  | some r => r.summary
  | none => ""

/-- Modelled from the spec: `upsert_record` lives in `AI_logic/airtable`,
which is not under `src/`; per §6 it writes the summary text (when one is
supplied) under the key and, when `not_to_rise` is set, marks the contact
suspended.  A record absent from the store is created. -/
def upsert_record (store : Store) (key : String) (summary_text : Option String)
    (not_to_rise : Bool) : Store :=
  let oldRec := (store.lookup key).getD ⟨"", false⟩
  let newRec : ContactRecord :=
    ⟨summary_text.getD oldRec.summary, oldRec.suspended || not_to_rise⟩
  (key, newRec) :: store.filter (fun p => p.1 ≠ key)

/-- Process-wide configuration read at startup in `respond.py`:
`LANGUAGE` and `CITY` are required (`os.environ[...]`, so startup already
failed if they were absent), while the notification webhook URL and the
Pushbullet key are optional (`os.getenv`). -/
structure Config where
  language : String
  city : String
  notifications_hook : Option String
  pushbullet_key : Option String

/-- The argument dictionary passed to the writer chain at its call site in
`respond_to_girl`. -/
structure WriterArgs where
  rules : String
  messages : String
  language : String
  city : String
  deriving Repr, DecidableEq

/-- One observable external call made during a cycle. -/
inductive Event where
  | analyzerCall (callIdx : Nat) (summary : String) (messages : String)
  | commanderCall (future_step : String) (shape : CommanderShape)
      (summary : String) (messages : String)
  | writerCall (args : WriterArgs)
  | webhookGet (url : String) (name_age : String) (contact : String)
  | pushNote (title : String) (body : String)
  | storeGet (key : String)
  | storeUpsert (key : String) (summary_text : Option String) (not_to_rise : Bool)
  deriving Repr, DecidableEq

/-- An error that escapes `respond_to_girl` to its caller: an exception
raised by a direct (unwrapped) chain invocation, the retry-exhaustion
error propagated out of `invoke_chain`, or a Python `NameError` from using
a global name that was never bound. -/
inductive RunError where
  | chainFailure : ChainError → RunError
  | exhausted : ChainError → RunError
  | nameError : String → RunError
  deriving Repr, DecidableEq

/-- The environment a cycle runs in: the startup configuration, the prior
contents of the state store, the three model-backed chains as oracles
(Analyzer indexed by invocation number within the cycle, Writer indexed by
retry attempt number), and the pure rule lookup `query_rule` of the rule
store (external per the spec, assumed total and side-effect-free). -/
structure Env where
  config : Config
  store : Store
  analyzer : Nat → String → String → Except ChainError AnalyzerOutput
  commander : String → String → String → Except ChainError CommanderOutput
  writer : Nat → WriterArgs → Except ChainError WriterOutput
  query_rule : String → String

/-- Observable behaviour of one `respond_to_girl` cycle: the ordered trace
of external calls, the state store after the cycle, and either the
returned value (`none` on the contact-exit path, the Writer's message list
otherwise) or the error that escaped. -/
structure RunResult where
  events : List Event
  store : Store
  result : Except RunError (Option (List String))

/-- CPython-style escaping of one character inside a quoted `repr`. -/
def pyEscapeChar (quote : Char) (c : Char) : String :=
  if c = Char.ofNat 92 then String.singleton (Char.ofNat 92) ++ String.singleton (Char.ofNat 92)
  else if c = quote then String.singleton (Char.ofNat 92) ++ String.singleton c
  else if c = Char.ofNat 10 then String.singleton (Char.ofNat 92) ++ "n"
  else if c = Char.ofNat 13 then String.singleton (Char.ofNat 92) ++ "r"
  else if c = Char.ofNat 9 then String.singleton (Char.ofNat 92) ++ "t"
  else String.singleton c

/-- CPython `repr` of a string (the common cases): single-quoted unless the
string contains a single quote and no double quote. -/
def pyStrRepr (s : String) : String :=
  let q : Char :=
    if s.contains (Char.ofNat 39) && !(s.contains (Char.ofNat 34)) then Char.ofNat 34
    else Char.ofNat 39
  String.singleton q ++ String.join (s.toList.map (pyEscapeChar q)) ++ String.singleton q

/-- CPython `str` of a list of strings, as produced by the f-string
`f'Conversator: {messages}'` at line 142 of `respond.py` after `messages`
has been rebound to the Writer's message list. -/
def pyListRepr (xs : List String) : String :=
  "[" ++ String.intercalate ", " (xs.map pyStrRepr) ++ "]"

/-- The guidance block built at line 131 of `respond.py`:
`"\n###\n- ".join([query_rule(tag) for tag in tags])`. -/
def resolve_rules (query_rule : String → String) (tags : List String) : String :=
  String.intercalate "\n###\n- " (tags.map query_rule)

/-- The webhook call on the contact-exit path, lines 122-123 of
`respond.py`: an HTTP GET with parameters `name_age` and `contact`, made
only when a webhook URL is configured. -/
def webhook_events (hook : Option String) (name_age contact : String) : List Event :=
  match hook with
  | some url => [.webhookGet url name_age contact]
  | none => []

/-- The argument dictionary built at the writer call site, lines 132-137
of `respond.py`. -/
def writer_args (env : Env) (tags : List String) (messages : String) : WriterArgs :=
  ⟨resolve_rules env.query_rule tags, messages, env.config.language, env.config.city⟩

/-- `respond_to_girl(name_age, messages)` of `respond.py`, step by step:
load the prior summary; invoke the Analyzer chain directly; on a non-empty
`contact` fire the webhook (only if configured), call
`pushbullet.push_note` (a `NameError` when no Pushbullet key was set at
startup, since the global `pushbullet` is then never bound), persist with
`not_to_rise=True` and return nothing; otherwise invoke the Commander
chain (shape chosen by `commander_chain(future_step)`) directly, join the
rule texts for its tags, invoke the writer chain through `invoke_chain`
(the only retry-wrapped call), conditionally re-invoke the Analyzer to
refresh the summary when the tags contain "Attractive guy image" or
"Storytelling", persist the final summary and return the Writer's message
list. -/
def respond_to_girl (env : Env) (name_age : String) (messages : String) : RunResult :=
  let previous_summary := get_record env.store name_age
  let ev0 : List Event := [.storeGet name_age, .analyzerCall 0 previous_summary messages]
  match env.analyzer 0 previous_summary messages with
  | .error e => ⟨ev0, env.store, .error (.chainFailure e)⟩
  | .ok analyzer_output =>
    let future_step := analyzer_output.future_step
    let summary := analyzer_output.summary
    let contact := analyzer_output.contact
    if contact ≠ "" then
      let evHook := webhook_events env.config.notifications_hook name_age contact
      match env.config.pushbullet_key with
      | none => ⟨ev0 ++ evHook, env.store, .error (.nameError "pushbullet")⟩
      | some _ =>
        let evPush : List Event := [.pushNote ("I planned date with " ++ name_age) contact]
        ⟨ev0 ++ evHook ++ evPush ++ [.storeUpsert name_age none true],
          upsert_record env.store name_age none true, .ok none⟩
    else
      let ev1 := ev0 ++ [.commanderCall future_step (commander_chain future_step) summary messages]
      match env.commander future_step summary messages with
      | .error e => ⟨ev1, env.store, .error (.chainFailure e)⟩
      | .ok commander_output =>
        let tags := commander_output.tags
        let args := writer_args env tags messages
        let ev2 := ev1 ++ [.writerCall args]
        match (invoke_chain (fun i => env.writer i args)).outcome with
        | .error (.exhausted e) => ⟨ev2, env.store, .error (.exhausted e)⟩
        | .ok writer_output =>
          let out_messages := writer_output.message
          if "Attractive guy image" ∈ tags ∨ "Storytelling" ∈ tags then
            let messages2 := "Conversator: " ++ pyListRepr out_messages
            let ev3 := ev2 ++ [.analyzerCall 1 summary messages2]
            match env.analyzer 1 summary messages2 with
            | .error e => ⟨ev3, env.store, .error (.chainFailure e)⟩
            | .ok analyzer2_output =>
              ⟨ev3 ++ [.storeUpsert name_age (some analyzer2_output.summary) false],
                upsert_record env.store name_age (some analyzer2_output.summary) false,
                .ok (some out_messages)⟩
          else
            ⟨ev2 ++ [.storeUpsert name_age (some summary) false],
              upsert_record env.store name_age (some summary) false,
              .ok (some out_messages)⟩

/-- Number of Analyzer invocations recorded in a trace. -/
def analyzer_call_count (events : List Event) : Nat :=
  (events.filter fun e =>
    match e with
    | .analyzerCall _ _ _ => true
    | _ => false).length

/-- Number of Commander invocations recorded in a trace. -/
def commander_call_count (events : List Event) : Nat :=
  (events.filter fun e =>
    match e with
    | .commanderCall _ _ _ _ => true
    | _ => false).length

/-- Number of Writer invocations recorded in a trace. -/
def writer_call_count (events : List Event) : Nat :=
  (events.filter fun e =>
    match e with
    | .writerCall _ => true
    | _ => false).length

/-- Number of store writes recorded in a trace. -/
def upsert_count (events : List Event) : Nat :=
  (events.filter fun e =>
    match e with
    | .storeUpsert _ _ _ => true
    | _ => false).length

/-- Number of push notifications recorded in a trace. -/
def push_count (events : List Event) : Nat :=
  (events.filter fun e =>
    match e with
    | .pushNote _ _ => true
    | _ => false).length

end TinderGPT

namespace TinderGPT

/-- The retry loop never makes more attempts than it has fuel for. -/
theorem retry_run_attemptsMade_le {α : Type} (oracle : Nat → Except ChainError α)
    (wait : Nat) : ∀ (fuel attemptIdx : Nat),
    (retry_run oracle wait attemptIdx fuel).attemptsMade ≤ fuel := by
  intro fuel
  induction fuel with
  | zero => intro attemptIdx; simp [retry_run]
  | succ k ih =>
    intro attemptIdx
    unfold retry_run
    cases oracle attemptIdx with
    | ok a => simp
    | error e =>
      by_cases hk : k = 0
      · simp [hk]
      · simp only [hk, if_false]
        exact Nat.succ_le_succ (ih (attemptIdx + 1))

/-- Every delay inserted by the retry loop equals the fixed wait. -/
theorem retry_run_delays_fixed {α : Type} (oracle : Nat → Except ChainError α)
    (wait : Nat) : ∀ (fuel attemptIdx : Nat),
    ∀ d ∈ (retry_run oracle wait attemptIdx fuel).delays, d = wait := by
  intro fuel
  induction fuel with
  | zero => intro attemptIdx; simp [retry_run]
  | succ k ih =>
    intro attemptIdx
    unfold retry_run
    cases oracle attemptIdx with
    | ok a => simp
    | error e =>
      by_cases hk : k = 0
      · simp [hk]
      · simp only [hk, if_false]
        intro d hd
        rcases List.mem_cons.mp hd with h | h
        · exact h
        · exact ih (attemptIdx + 1) d h

end TinderGPT

namespace TinderGPT

/-- A concrete chain failure used to exercise the retry wrapper. -/
def demo_transport_error : ChainError := .transportError "rate limited"

/-- A concrete format failure used to exercise the retry wrapper. -/
def demo_format_error : ChainError := .formatError "unparseable output"

/-- A concrete writer oracle that always succeeds. -/
def oracle_ok : Nat → Except ChainError Nat := fun _ => .ok 7

/-- A concrete oracle failing on the first two attempts and succeeding on
the third. -/
def oracle_two_failures : Nat → Except ChainError Nat := fun n =>
  if n = 0 then .error demo_transport_error
  else if n = 1 then .error demo_format_error
  else .ok 7

/-- A concrete oracle failing on every attempt. -/
def oracle_all_failures : Nat → Except ChainError Nat := fun n =>
  if n = 0 then .error demo_transport_error
  else if n = 1 then .error demo_format_error
  else .error demo_transport_error

/-- C6: `invoke_chain` makes at most 3 attempts in total with a fixed
90-time-unit delay between attempts and no backoff growth; an invocation
failing exactly twice and succeeding on the third attempt returns the
successful result with the two failures logged; an invocation failing on
all three attempts propagates the retry-exhaustion error wrapping the last
failure and yields no result. -/
theorem invoke_chain_retry_policy {α : Type} (oracle oa ob : Nat → Except ChainError α)
    (e1 e2 e3 e4 e5 : ChainError) (a : α)
    (ha0 : oa 0 = .error e1) (ha1 : oa 1 = .error e2) (ha2 : oa 2 = .ok a)
    (hb0 : ob 0 = .error e3) (hb1 : ob 1 = .error e4) (hb2 : ob 2 = .error e5) :
    (invoke_chain oracle).attemptsMade ≤ 3 ∧
    (∀ d ∈ (invoke_chain oracle).delays, d = 90) ∧
    ((invoke_chain oa).outcome = .ok a ∧ (invoke_chain oa).attemptsMade = 3 ∧
      (invoke_chain oa).loggedErrors = [e1, e2] ∧ (invoke_chain oa).delays = [90, 90]) ∧
    ((invoke_chain ob).outcome = .error (.exhausted e5) ∧
      (invoke_chain ob).loggedErrors = [e3, e4, e5] ∧ (invoke_chain ob).delays = [90, 90]) := by
  refine ⟨retry_run_attemptsMade_le oracle 90 3 0, retry_run_delays_fixed oracle 90 3 0, ?_, ?_⟩
  · simp [invoke_chain, retry_run, ha0, ha1, ha2]
  · simp [invoke_chain, retry_run, hb0, hb1, hb2]

/-- C6 witness: the retry policy instantiated at concrete oracles — one
failing twice then succeeding, one failing on all three attempts. -/
theorem invoke_chain_retry_policy_witness :
    (invoke_chain oracle_ok).attemptsMade ≤ 3 ∧
    (∀ d ∈ (invoke_chain oracle_ok).delays, d = 90) ∧
    ((invoke_chain oracle_two_failures).outcome = .ok 7 ∧
      (invoke_chain oracle_two_failures).attemptsMade = 3 ∧
      (invoke_chain oracle_two_failures).loggedErrors = [demo_transport_error, demo_format_error] ∧
      (invoke_chain oracle_two_failures).delays = [90, 90]) ∧
    ((invoke_chain oracle_all_failures).outcome = .error (.exhausted demo_transport_error) ∧
      (invoke_chain oracle_all_failures).loggedErrors =
        [demo_transport_error, demo_format_error, demo_transport_error] ∧
      (invoke_chain oracle_all_failures).delays = [90, 90]) :=
  invoke_chain_retry_policy oracle_ok oracle_two_failures oracle_all_failures
    demo_transport_error demo_format_error demo_transport_error demo_format_error
    demo_transport_error 7 rfl rfl rfl rfl rfl rfl

/-- C10: the Commander shape selector returns the step1 (3-tag) schema only
for the exact string "step1"; every other `future_step` value — including
out-of-vocabulary values never validated by the host code — selects the
step2 (4-tag) schema. -/
theorem commander_chain_defaults_to_step2 (s : String) (h : s ≠ "step1") :
    commander_chain s = .step2 ∧
    shape_tag_vocabulary (commander_chain s) =
      ["Suggesting meeting", "Comfort", "Providing meeting details", "Ask for contact"] ∧
    commander_chain "step1" = .step1 ∧
    shape_tag_vocabulary (commander_chain "step1") =
      ["Bond", "Attractive guy image", "Storytelling"] := by
  refine ⟨?_, ?_, ?_, ?_⟩ <;> simp [commander_chain, shape_tag_vocabulary, h]

/-- C10 witness: the selector evaluated at the malformed phases "step3" and
the empty string, and at "step1". -/
theorem commander_chain_defaults_to_step2_witness :
    (commander_chain "step3" = .step2 ∧
      shape_tag_vocabulary (commander_chain "step3") =
        ["Suggesting meeting", "Comfort", "Providing meeting details", "Ask for contact"] ∧
      commander_chain "step1" = .step1 ∧
      shape_tag_vocabulary (commander_chain "step1") =
        ["Bond", "Attractive guy image", "Storytelling"]) ∧
    commander_chain "" = .step2 :=
  ⟨commander_chain_defaults_to_step2 "step3" (by decide),
    (commander_chain_defaults_to_step2 "" (by decide)).1⟩

end TinderGPT

namespace TinderGPT

section RunEquations

variable (env : Env) (n m : String)

/-- Path equation: the first Analyzer invocation raises. -/
theorem run_eq_analyzer_error (e : ChainError)
    (hA : env.analyzer 0 (get_record env.store n) m = .error e) :
    respond_to_girl env n m =
      ⟨[.storeGet n, .analyzerCall 0 (get_record env.store n) m],
        env.store, .error (.chainFailure e)⟩ := by
  simp [respond_to_girl, hA]

/-- Path equation: contact found, no Pushbullet key bound at startup. -/
theorem run_eq_contact_no_key (a : AnalyzerOutput)
    (hA : env.analyzer 0 (get_record env.store n) m = .ok a)
    (hc : a.contact ≠ "") (hk : env.config.pushbullet_key = none) :
    respond_to_girl env n m =
      ⟨[.storeGet n, .analyzerCall 0 (get_record env.store n) m] ++
          webhook_events env.config.notifications_hook n a.contact,
        env.store, .error (.nameError "pushbullet")⟩ := by
  simp [respond_to_girl, hA, hc, hk]

/-- Path equation: contact found, Pushbullet key configured. -/
theorem run_eq_contact_with_key (a : AnalyzerOutput) (k : String)
    (hA : env.analyzer 0 (get_record env.store n) m = .ok a)
    (hc : a.contact ≠ "") (hk : env.config.pushbullet_key = some k) :
    respond_to_girl env n m =
      ⟨[.storeGet n, .analyzerCall 0 (get_record env.store n) m] ++
          webhook_events env.config.notifications_hook n a.contact ++
          [.pushNote ("I planned date with " ++ n) a.contact] ++
          [.storeUpsert n none true],
        upsert_record env.store n none true, .ok none⟩ := by
  simp [respond_to_girl, hA, hc, hk]

/-- Path equation: no contact, Commander invocation raises. -/
theorem run_eq_commander_error (a : AnalyzerOutput) (e : ChainError)
    (hA : env.analyzer 0 (get_record env.store n) m = .ok a)
    (hc : a.contact = "")
    (hC : env.commander a.future_step a.summary m = .error e) :
    respond_to_girl env n m =
      ⟨[.storeGet n, .analyzerCall 0 (get_record env.store n) m,
          .commanderCall a.future_step (commander_chain a.future_step) a.summary m],
        env.store, .error (.chainFailure e)⟩ := by
  simp [respond_to_girl, hA, hc, hC]

/-- Path equation: Writer retries exhausted. -/
theorem run_eq_writer_exhausted (a : AnalyzerOutput) (c : CommanderOutput) (e : ChainError)
    (hA : env.analyzer 0 (get_record env.store n) m = .ok a)
    (hc : a.contact = "")
    (hC : env.commander a.future_step a.summary m = .ok c)
    (hW : (invoke_chain (fun i => env.writer i (writer_args env c.tags m))).outcome =
      .error (.exhausted e)) :
    respond_to_girl env n m =
      ⟨[.storeGet n, .analyzerCall 0 (get_record env.store n) m,
          .commanderCall a.future_step (commander_chain a.future_step) a.summary m,
          .writerCall (writer_args env c.tags m)],
        env.store, .error (.exhausted e)⟩ := by
  simp [respond_to_girl, hA, hc, hC, hW]

/-- Path equation: Writer succeeded, tags outside the refresh set, summary
persisted from the first Analyzer output. -/
theorem run_eq_no_refresh (a : AnalyzerOutput) (c : CommanderOutput) (w : WriterOutput)
    (hA : env.analyzer 0 (get_record env.store n) m = .ok a)
    (hc : a.contact = "")
    (hC : env.commander a.future_step a.summary m = .ok c)
    (hW : (invoke_chain (fun i => env.writer i (writer_args env c.tags m))).outcome = .ok w)
    (ht : ¬("Attractive guy image" ∈ c.tags ∨ "Storytelling" ∈ c.tags)) :
    respond_to_girl env n m =
      ⟨[.storeGet n, .analyzerCall 0 (get_record env.store n) m,
          .commanderCall a.future_step (commander_chain a.future_step) a.summary m,
          .writerCall (writer_args env c.tags m),
          .storeUpsert n (some a.summary) false],
        upsert_record env.store n (some a.summary) false, .ok (some w.message)⟩ := by
  simp [respond_to_girl, hA, hc, hC, hW, ht]

/-- Path equation: refresh tags selected, second Analyzer invocation
raises. -/
theorem run_eq_refresh_error (a : AnalyzerOutput) (c : CommanderOutput) (w : WriterOutput)
    (e : ChainError)
    (hA : env.analyzer 0 (get_record env.store n) m = .ok a)
    (hc : a.contact = "")
    (hC : env.commander a.future_step a.summary m = .ok c)
    (hW : (invoke_chain (fun i => env.writer i (writer_args env c.tags m))).outcome = .ok w)
    (ht : "Attractive guy image" ∈ c.tags ∨ "Storytelling" ∈ c.tags)
    (hA2 : env.analyzer 1 a.summary ("Conversator: " ++ pyListRepr w.message) = .error e) :
    respond_to_girl env n m =
      ⟨[.storeGet n, .analyzerCall 0 (get_record env.store n) m,
          .commanderCall a.future_step (commander_chain a.future_step) a.summary m,
          .writerCall (writer_args env c.tags m),
          .analyzerCall 1 a.summary ("Conversator: " ++ pyListRepr w.message)],
        env.store, .error (.chainFailure e)⟩ := by
  simp [respond_to_girl, hA, hc, hC, hW, ht, hA2]

/-- Path equation: refresh tags selected, second Analyzer invocation
succeeds, refreshed summary persisted. -/
theorem run_eq_refresh_ok (a : AnalyzerOutput) (c : CommanderOutput) (w : WriterOutput)
    (a2 : AnalyzerOutput)
    (hA : env.analyzer 0 (get_record env.store n) m = .ok a)
    (hc : a.contact = "")
    (hC : env.commander a.future_step a.summary m = .ok c)
    (hW : (invoke_chain (fun i => env.writer i (writer_args env c.tags m))).outcome = .ok w)
    (ht : "Attractive guy image" ∈ c.tags ∨ "Storytelling" ∈ c.tags)
    (hA2 : env.analyzer 1 a.summary ("Conversator: " ++ pyListRepr w.message) = .ok a2) :
    respond_to_girl env n m =
      ⟨[.storeGet n, .analyzerCall 0 (get_record env.store n) m,
          .commanderCall a.future_step (commander_chain a.future_step) a.summary m,
          .writerCall (writer_args env c.tags m),
          .analyzerCall 1 a.summary ("Conversator: " ++ pyListRepr w.message),
          .storeUpsert n (some a2.summary) false],
        upsert_record env.store n (some a2.summary) false, .ok (some w.message)⟩ := by
  simp [respond_to_girl, hA, hc, hC, hW, ht, hA2]

end RunEquations

/-- Reading back a key just written with a summary text returns exactly
that text. -/
theorem get_record_upsert (store : Store) (key : String) (s : String) (b : Bool) :
    get_record (upsert_record store key (some s) b) key = s := by
  simp [get_record, upsert_record, List.lookup]

/-- The webhook step never writes to the state store. -/
theorem upsert_count_webhook_events (hook : Option String) (n contact : String) :
    upsert_count (webhook_events hook n contact) = 0 := by
  cases hook <;> simp [webhook_events, upsert_count]

end TinderGPT

namespace TinderGPT

/-- A concrete transient failure of the generation backend. -/
def transient_failure : ChainError := .transportError "request timed out"

/-- A concrete Analyzer oracle that detects a contact in the incoming
messages. -/
def exit_analyzer : Nat → String → String → Except ChainError AnalyzerOutput :=
  fun _ _ _ => .ok ⟨"We are on step 1.", "step1", "Instagram jane_doe"⟩

/-- A concrete Analyzer oracle that finds no contact; its second invocation
within a cycle returns a refreshed summary. -/
def happy_analyzer : Nat → String → String → Except ChainError AnalyzerOutput :=
  fun i _ _ =>
    if i = 0 then .ok ⟨"We are on step 1.", "step1", ""⟩
    else .ok ⟨"We are on step 1. One story told.", "step1", ""⟩

/-- A concrete Commander oracle selecting the single tag "Bond". -/
def bond_commander : String → String → String → Except ChainError CommanderOutput :=
  fun _ _ _ => .ok ⟨"build rapport first", ["Bond"]⟩

/-- A concrete Commander oracle selecting the single tag "Storytelling". -/
def story_commander : String → String → String → Except ChainError CommanderOutput :=
  fun _ _ _ => .ok ⟨"tell a story", ["Storytelling"]⟩

/-- A concrete Writer oracle that always succeeds. -/
def plain_writer : Nat → WriterArgs → Except ChainError WriterOutput :=
  fun _ _ => .ok ⟨"friendly reply", ["Hey, how was your day?"]⟩

/-- A concrete pure rule lookup. -/
def demo_rules : String → String :=
  fun t =>
    if t = "Bond" then "Ask about her day."
    else if t = "Storytelling" then "Tell a vivid story."
    else "No rule found."

/-- A second rule lookup that agrees with `demo_rules` on the tags
actually selected. -/
def demo_rules2 : String → String :=
  fun t => if t = "Bond" then "Ask about her day." else "Tell a vivid story."

/-- Environment in which a contact is detected and no Pushbullet key was
configured at startup. -/
def no_push_env : Env :=
  ⟨⟨"English", "Warsaw", some "https://hook.example/notify", none⟩, [],
    exit_analyzer, bond_commander, plain_writer, demo_rules⟩

/-- Environment in which a contact is detected and a Pushbullet key is
configured. -/
def with_push_env : Env :=
  ⟨⟨"English", "Warsaw", some "https://hook.example/notify", some "pb-key"⟩, [],
    exit_analyzer, bond_commander, plain_writer, demo_rules⟩

/-- Environment for a fully successful cycle with tag set `["Bond"]`. -/
def happy_env : Env :=
  ⟨⟨"English", "Warsaw", none, some "pb-key"⟩, [],
    happy_analyzer, bond_commander, plain_writer, demo_rules⟩

/-- Environment for a fully successful cycle with tag set
`["Storytelling"]`. -/
def story_env : Env :=
  ⟨⟨"English", "Warsaw", none, some "pb-key"⟩, [],
    happy_analyzer, story_commander, plain_writer, demo_rules⟩

/-- Environment whose Commander selects the two tags
`["Bond", "Storytelling"]` in that order. -/
def pair_env : Env :=
  ⟨⟨"English", "Warsaw", none, some "pb-key"⟩, [],
    happy_analyzer, (fun _ _ _ => .ok ⟨"mix tactics", ["Bond", "Storytelling"]⟩),
    plain_writer, demo_rules⟩

/-- Environment whose Analyzer reports phase step2. -/
def step2_env : Env :=
  ⟨⟨"English", "Warsaw", none, some "pb-key"⟩, [],
    (fun _ _ _ => .ok ⟨"We are on step 2.", "step2", ""⟩),
    (fun _ _ _ => .ok ⟨"suggest a meeting", ["Suggesting meeting"]⟩),
    plain_writer, demo_rules⟩

/-- Environment whose Analyzer fails transiently: the first chain
invocation of the cycle raises, any later one would succeed. -/
def flaky_analyzer_env : Env :=
  ⟨⟨"English", "Warsaw", none, some "pb-key"⟩, [],
    (fun i s _ => if i = 0 then .error transient_failure else .ok ⟨s, "step1", ""⟩),
    bond_commander, plain_writer, demo_rules⟩

/-- Environment whose Commander invocation raises. -/
def flaky_commander_env : Env :=
  ⟨⟨"English", "Warsaw", none, some "pb-key"⟩, [],
    happy_analyzer, (fun _ _ _ => .error transient_failure), plain_writer, demo_rules⟩

/-- Environment whose Writer fails on the first attempt and succeeds on
the second. -/
def flaky_writer_env : Env :=
  ⟨⟨"English", "Warsaw", none, some "pb-key"⟩, [],
    happy_analyzer, bond_commander,
    (fun i _ => if i = 0 then .error transient_failure
      else .ok ⟨"friendly reply", ["Hey, how was your day?"]⟩),
    demo_rules⟩

/-- Environment whose Writer fails on every attempt, with a pre-existing
stored record. -/
def dead_writer_env : Env :=
  ⟨⟨"English", "Warsaw", none, some "pb-key"⟩,
    [("Jane 25", ⟨"old summary", false⟩)],
    happy_analyzer, bond_commander, (fun _ _ => .error transient_failure), demo_rules⟩

end TinderGPT

namespace TinderGPT

/-- C1: on the contact-exit path the orchestrator is meant never to invoke
Commander or Writer, to leave the summary text untouched, to persist the
suspended (not-to-rise) flag and to return no message.  Evaluating the
code at a cycle with a detected contact and no Pushbullet key configured
shows the divergence: `pushbullet.push_note` is called unconditionally
while the global `pushbullet` is bound only when the key is set, so the
cycle aborts with a `NameError` before `upsert_record` runs — Commander
and Writer are indeed never invoked and the summary is untouched, but the
suspended flag is never persisted and the cycle raises instead of
returning. -/
theorem contact_exit_crashes_without_push_key :
    (respond_to_girl no_push_env "Jane 25" "hej").result = .error (.nameError "pushbullet") ∧
    commander_call_count (respond_to_girl no_push_env "Jane 25" "hej").events = 0 ∧
    writer_call_count (respond_to_girl no_push_env "Jane 25" "hej").events = 0 ∧
    upsert_count (respond_to_girl no_push_env "Jane 25" "hej").events = 0 ∧
    (respond_to_girl no_push_env "Jane 25" "hej").store = ([] : Store) :=
  ⟨rfl, rfl, rfl, rfl, rfl⟩

/-- C3: the push notification is meant to be sent only when a push service
key was configured at startup, and an absent key is meant to silently
disable the feature while the contact-exit path completes normally.  With
the key configured the push fires once, the suspended flag is persisted
and the cycle returns no message; with the key absent no push fires, but
the cycle aborts with a `NameError` instead of completing — the silent
disabling promised by the spec does not happen. -/
theorem push_note_crashes_when_key_absent :
    push_count (respond_to_girl with_push_env "Jane 25" "hej").events = 1 ∧
    (respond_to_girl with_push_env "Jane 25" "hej").result = .ok none ∧
    List.lookup "Jane 25" (respond_to_girl with_push_env "Jane 25" "hej").store =
      some ⟨"", true⟩ ∧
    push_count (respond_to_girl no_push_env "Jane 25" "hej").events = 0 ∧
    (respond_to_girl no_push_env "Jane 25" "hej").result = .error (.nameError "pushbullet") :=
  ⟨rfl, rfl, rfl, rfl, rfl⟩

/-- C2 counterexample: the spec claims all three model-backed
transformations run under the bounded retry policy, so a transient failure
is retried rather than propagated.  In an environment whose Analyzer fails
transiently (its first invocation raises, the next would succeed), the
cycle nevertheless propagates the failure after exactly one Analyzer
invocation and never reaches the Writer — the Analyzer is not retried. -/
theorem analyzer_transient_failure_not_retried :
    flaky_analyzer_env.analyzer 1 "" "hej" = .ok ⟨"", "step1", ""⟩ ∧
    (respond_to_girl flaky_analyzer_env "Jane 25" "hej").result =
      .error (.chainFailure transient_failure) ∧
    analyzer_call_count (respond_to_girl flaky_analyzer_env "Jane 25" "hej").events = 1 ∧
    writer_call_count (respond_to_girl flaky_analyzer_env "Jane 25" "hej").events = 0 :=
  ⟨rfl, rfl, rfl, rfl⟩

/-- C2 (amended): only the Writer transformation is executed through the
bounded retry wrapper `invoke_chain`; the Analyzer and Commander chains
are invoked directly, so a failure of either propagates to the caller
immediately after a single invocation, while a transient Writer failure
is retried and the cycle still succeeds. -/
theorem retry_wraps_only_writer (envA envC envW : Env) (n m : String)
    (eA : ChainError) (aC : AnalyzerOutput) (eC : ChainError)
    (aW : AnalyzerOutput) (cW : CommanderOutput) (w : WriterOutput) (eW : ChainError)
    (hA : envA.analyzer 0 (get_record envA.store n) m = .error eA)
    (hCa : envC.analyzer 0 (get_record envC.store n) m = .ok aC)
    (hCc : aC.contact = "")
    (hCf : envC.commander aC.future_step aC.summary m = .error eC)
    (hWa : envW.analyzer 0 (get_record envW.store n) m = .ok aW)
    (hWc : aW.contact = "")
    (hWC : envW.commander aW.future_step aW.summary m = .ok cW)
    (hW0 : envW.writer 0 (writer_args envW cW.tags m) = .error eW)
    (hW1 : envW.writer 1 (writer_args envW cW.tags m) = .ok w)
    (ht : ¬("Attractive guy image" ∈ cW.tags ∨ "Storytelling" ∈ cW.tags)) :
    ((respond_to_girl envA n m).result = .error (.chainFailure eA) ∧
      analyzer_call_count (respond_to_girl envA n m).events = 1) ∧
    ((respond_to_girl envC n m).result = .error (.chainFailure eC) ∧
      commander_call_count (respond_to_girl envC n m).events = 1) ∧
    ((invoke_chain (fun i => envW.writer i (writer_args envW cW.tags m))).attemptsMade = 2 ∧
      (invoke_chain (fun i => envW.writer i (writer_args envW cW.tags m))).loggedErrors = [eW] ∧
      (respond_to_girl envW n m).result = .ok (some w.message)) := by
  have hOut : (invoke_chain (fun i => envW.writer i (writer_args envW cW.tags m))).outcome =
      .ok w := by
    simp [invoke_chain, retry_run, hW0, hW1]
  refine ⟨?_, ?_, ?_, ?_, ?_⟩
  · rw [run_eq_analyzer_error envA n m eA hA]; simp [analyzer_call_count]
  · rw [run_eq_commander_error envC n m aC eC hCa hCc hCf]; simp [commander_call_count]
  · simp [invoke_chain, retry_run, hW0, hW1]
  · simp [invoke_chain, retry_run, hW0, hW1]
  · rw [run_eq_no_refresh envW n m aW cW w hWa hWc hWC hOut ht]

/-- C2 witness: the amended claim instantiated at three concrete
environments — Analyzer failing transiently, Commander failing, and Writer
failing once then succeeding. -/
theorem retry_wraps_only_writer_witness :
    ((respond_to_girl flaky_analyzer_env "Jane 25" "hej").result =
        .error (.chainFailure transient_failure) ∧
      analyzer_call_count (respond_to_girl flaky_analyzer_env "Jane 25" "hej").events = 1) ∧
    ((respond_to_girl flaky_commander_env "Jane 25" "hej").result =
        .error (.chainFailure transient_failure) ∧
      commander_call_count (respond_to_girl flaky_commander_env "Jane 25" "hej").events = 1) ∧
    ((invoke_chain (fun i => flaky_writer_env.writer i
        (writer_args flaky_writer_env ["Bond"] "hej"))).attemptsMade = 2 ∧
      (invoke_chain (fun i => flaky_writer_env.writer i
        (writer_args flaky_writer_env ["Bond"] "hej"))).loggedErrors = [transient_failure] ∧
      (respond_to_girl flaky_writer_env "Jane 25" "hej").result =
        .ok (some ["Hey, how was your day?"])) :=
  retry_wraps_only_writer flaky_analyzer_env flaky_commander_env flaky_writer_env "Jane 25" "hej"
    transient_failure ⟨"We are on step 1.", "step1", ""⟩ transient_failure
    ⟨"We are on step 1.", "step1", ""⟩ ⟨"build rapport first", ["Bond"]⟩
    ⟨"friendly reply", ["Hey, how was your day?"]⟩ transient_failure
    rfl rfl rfl rfl rfl rfl rfl rfl rfl (by decide)

/-- C4: whenever the Analyzer returns an empty `contact`, the Commander is
invoked exactly once, with exactly the `future_step` value the Analyzer
returned, and the output schema is selected by that phase — "step1" yields
the 3-tag step1 shape, "step2" the 4-tag step2 shape. -/
theorem commander_receives_analyzer_future_step (env : Env) (n m : String)
    (a : AnalyzerOutput)
    (hA : env.analyzer 0 (get_record env.store n) m = .ok a)
    (hc : a.contact = "") :
    (respond_to_girl env n m).events.get? 2 =
      some (.commanderCall a.future_step (commander_chain a.future_step) a.summary m) ∧
    commander_call_count (respond_to_girl env n m).events = 1 ∧
    (a.future_step = "step1" →
      commander_chain a.future_step = .step1 ∧
      shape_tag_vocabulary (commander_chain a.future_step) =
        ["Bond", "Attractive guy image", "Storytelling"]) ∧
    (a.future_step = "step2" →
      commander_chain a.future_step = .step2 ∧
      shape_tag_vocabulary (commander_chain a.future_step) =
        ["Suggesting meeting", "Comfort", "Providing meeting details", "Ask for contact"]) := by
  have hmain : (respond_to_girl env n m).events.get? 2 =
      some (.commanderCall a.future_step (commander_chain a.future_step) a.summary m) ∧
      commander_call_count (respond_to_girl env n m).events = 1 := by
    cases hC : env.commander a.future_step a.summary m with
    | error e =>
      rw [run_eq_commander_error env n m a e hA hc hC]
      simp [commander_call_count]
    | ok c =>
      cases hw : (invoke_chain (fun i => env.writer i (writer_args env c.tags m))).outcome with
      | error iv =>
        obtain ⟨e⟩ := iv
        rw [run_eq_writer_exhausted env n m a c e hA hc hC hw]
        simp [commander_call_count]
      | ok w =>
        by_cases ht : "Attractive guy image" ∈ c.tags ∨ "Storytelling" ∈ c.tags
        · cases hA2 : env.analyzer 1 a.summary ("Conversator: " ++ pyListRepr w.message) with
          | error e =>
            rw [run_eq_refresh_error env n m a c w e hA hc hC hw ht hA2]
            simp [commander_call_count]
          | ok a2 =>
            rw [run_eq_refresh_ok env n m a c w a2 hA hc hC hw ht hA2]
            simp [commander_call_count]
        · rw [run_eq_no_refresh env n m a c w hA hc hC hw ht]
          simp [commander_call_count]
  refine ⟨hmain.1, hmain.2, ?_, ?_⟩
  · intro h1; rw [h1]; simp [commander_chain, shape_tag_vocabulary]
  · intro h2; rw [h2]; simp [commander_chain, shape_tag_vocabulary]

/-- C4 witness: a step1 cycle and a step2 cycle, each showing the
Commander invoked with the Analyzer's `future_step` and the matching
schema. -/
theorem commander_receives_analyzer_future_step_witness :
    ((respond_to_girl happy_env "Jane 25" "hej").events.get? 2 =
      some (.commanderCall "step1" (commander_chain "step1") "We are on step 1." "hej")) ∧
    (commander_chain "step1" = .step1 ∧
      shape_tag_vocabulary (commander_chain "step1") =
        ["Bond", "Attractive guy image", "Storytelling"]) ∧
    ((respond_to_girl step2_env "Jane 25" "hej").events.get? 2 =
      some (.commanderCall "step2" (commander_chain "step2") "We are on step 2." "hej")) ∧
    (commander_chain "step2" = .step2 ∧
      shape_tag_vocabulary (commander_chain "step2") =
        ["Suggesting meeting", "Comfort", "Providing meeting details", "Ask for contact"]) := by
  have h1 := commander_receives_analyzer_future_step happy_env "Jane 25" "hej"
    ⟨"We are on step 1.", "step1", ""⟩ rfl rfl
  have h2 := commander_receives_analyzer_future_step step2_env "Jane 25" "hej"
    ⟨"We are on step 2.", "step2", ""⟩ rfl rfl
  exact ⟨h1.1, h1.2.2.1 rfl, h2.1, h2.2.2.2 rfl⟩

end TinderGPT

namespace TinderGPT

/-- C5: a second Analyzer invocation before persistence happens exactly
when the Commander's tag set intersects {Attractive guy image,
Storytelling}: when it does, one additional Analyzer call is made and its
refreshed summary is the one persisted; when it does not (for example tag
set `["Bond"]`), there is no second Analyzer call and the first Analyzer's
summary is persisted. -/
theorem summary_refresh_gating (env : Env) (n m : String) (a : AnalyzerOutput)
    (c : CommanderOutput) (w : WriterOutput)
    (hA : env.analyzer 0 (get_record env.store n) m = .ok a)
    (hc : a.contact = "")
    (hC : env.commander a.future_step a.summary m = .ok c)
    (hW : (invoke_chain (fun i => env.writer i (writer_args env c.tags m))).outcome = .ok w) :
    (("Attractive guy image" ∈ c.tags ∨ "Storytelling" ∈ c.tags) →
      ∀ a2 : AnalyzerOutput,
        env.analyzer 1 a.summary ("Conversator: " ++ pyListRepr w.message) = .ok a2 →
        analyzer_call_count (respond_to_girl env n m).events = 2 ∧
        get_record (respond_to_girl env n m).store n = a2.summary) ∧
    (¬("Attractive guy image" ∈ c.tags ∨ "Storytelling" ∈ c.tags) →
      analyzer_call_count (respond_to_girl env n m).events = 1 ∧
      get_record (respond_to_girl env n m).store n = a.summary) := by
  constructor
  · intro ht a2 hA2
    rw [run_eq_refresh_ok env n m a c w a2 hA hc hC hW ht hA2]
    exact ⟨by simp [analyzer_call_count], get_record_upsert env.store n a2.summary false⟩
  · intro ht
    rw [run_eq_no_refresh env n m a c w hA hc hC hW ht]
    exact ⟨by simp [analyzer_call_count], get_record_upsert env.store n a.summary false⟩

/-- C5 witness: with tag set `["Bond"]` one Analyzer call and the first
summary persisted; with `["Storytelling"]` two Analyzer calls and the
refreshed summary persisted. -/
theorem summary_refresh_gating_witness :
    (analyzer_call_count (respond_to_girl happy_env "Jane 25" "hej").events = 1 ∧
      get_record (respond_to_girl happy_env "Jane 25" "hej").store "Jane 25" =
        "We are on step 1.") ∧
    (analyzer_call_count (respond_to_girl story_env "Jane 25" "hej").events = 2 ∧
      get_record (respond_to_girl story_env "Jane 25" "hej").store "Jane 25" =
        "We are on step 1. One story told.") := by
  have h1 := summary_refresh_gating happy_env "Jane 25" "hej"
    ⟨"We are on step 1.", "step1", ""⟩ ⟨"build rapport first", ["Bond"]⟩
    ⟨"friendly reply", ["Hey, how was your day?"]⟩ rfl rfl rfl rfl
  have h2 := summary_refresh_gating story_env "Jane 25" "hej"
    ⟨"We are on step 1.", "step1", ""⟩ ⟨"tell a story", ["Storytelling"]⟩
    ⟨"friendly reply", ["Hey, how was your day?"]⟩ rfl rfl rfl rfl
  exact ⟨h1.2 (by decide),
    h2.1 (by decide) ⟨"We are on step 1. One story told.", "step1", ""⟩ rfl⟩

/-- C7: whenever a cycle fails — in particular when the Writer's retries
are exhausted — no state is persisted by that cycle: the state store is
left exactly as it was and no store write was issued at any point of the
failed run. -/
theorem failed_cycle_persists_nothing (env : Env) (n m : String) (e : RunError)
    (h : (respond_to_girl env n m).result = .error e) :
    (respond_to_girl env n m).store = env.store ∧
    upsert_count (respond_to_girl env n m).events = 0 := by
  cases hA : env.analyzer 0 (get_record env.store n) m with
  | error eA =>
    rw [run_eq_analyzer_error env n m eA hA]
    simp [upsert_count]
  | ok a =>
    by_cases hc : a.contact = ""
    · cases hC : env.commander a.future_step a.summary m with
      | error eC =>
        rw [run_eq_commander_error env n m a eC hA hc hC]
        simp [upsert_count]
      | ok c =>
        cases hw : (invoke_chain (fun i => env.writer i (writer_args env c.tags m))).outcome with
        | error iv =>
          obtain ⟨eW⟩ := iv
          rw [run_eq_writer_exhausted env n m a c eW hA hc hC hw]
          simp [upsert_count]
        | ok w =>
          by_cases ht : "Attractive guy image" ∈ c.tags ∨ "Storytelling" ∈ c.tags
          · cases hA2 : env.analyzer 1 a.summary ("Conversator: " ++ pyListRepr w.message) with
            | error e2 =>
              rw [run_eq_refresh_error env n m a c w e2 hA hc hC hw ht hA2]
              simp [upsert_count]
            | ok a2 =>
              rw [run_eq_refresh_ok env n m a c w a2 hA hc hC hw ht hA2] at h
              simp at h
          · rw [run_eq_no_refresh env n m a c w hA hc hC hw ht] at h
            simp at h
    · cases hk : env.config.pushbullet_key with
      | none =>
        rw [run_eq_contact_no_key env n m a hA hc hk]
        have := upsert_count_webhook_events env.config.notifications_hook n a.contact
        simpa [upsert_count] using this
      | some k =>
        rw [run_eq_contact_with_key env n m a k hA hc hk] at h
        simp at h

/-- C7 witness: a cycle whose Writer fails on all attempts leaves the
pre-existing stored record untouched and issues no store write. -/
theorem failed_cycle_persists_nothing_witness :
    (respond_to_girl dead_writer_env "Jane 25" "hej").result =
      .error (.exhausted transient_failure) ∧
    (respond_to_girl dead_writer_env "Jane 25" "hej").store =
      [("Jane 25", ⟨"old summary", false⟩)] ∧
    upsert_count (respond_to_girl dead_writer_env "Jane 25" "hej").events = 0 := by
  have h := failed_cycle_persists_nothing dead_writer_env "Jane 25" "hej"
    (.exhausted transient_failure) rfl
  exact ⟨rfl, h.1, h.2⟩

/-- C8: the guidance block passed to the Writer is the resolved guidance
texts of the selected tags joined with the fixed separator, in exactly the
order the tags were selected; and two resolutions of the same tag sequence
against lookups that agree on those tags produce identical guidance
blocks. -/
theorem writer_guidance_joined_in_tag_order (env : Env) (n m : String)
    (a : AnalyzerOutput) (c : CommanderOutput)
    (hA : env.analyzer 0 (get_record env.store n) m = .ok a)
    (hc : a.contact = "")
    (hC : env.commander a.future_step a.summary m = .ok c) :
    (respond_to_girl env n m).events.get? 3 = some (.writerCall (writer_args env c.tags m)) ∧
    (writer_args env c.tags m).rules =
      String.intercalate "\n###\n- " (c.tags.map env.query_rule) ∧
    (∀ q q2 : String → String, (∀ t ∈ c.tags, q t = q2 t) →
      resolve_rules q c.tags = resolve_rules q2 c.tags) := by
  refine ⟨?_, rfl, ?_⟩
  · cases hw : (invoke_chain (fun i => env.writer i (writer_args env c.tags m))).outcome with
    | error iv =>
      obtain ⟨eW⟩ := iv
      rw [run_eq_writer_exhausted env n m a c eW hA hc hC hw]
      simp
    | ok w =>
      by_cases ht : "Attractive guy image" ∈ c.tags ∨ "Storytelling" ∈ c.tags
      · cases hA2 : env.analyzer 1 a.summary ("Conversator: " ++ pyListRepr w.message) with
        | error e2 =>
          rw [run_eq_refresh_error env n m a c w e2 hA hc hC hw ht hA2]
          simp
        | ok a2 =>
          rw [run_eq_refresh_ok env n m a c w a2 hA hc hC hw ht hA2]
          simp
      · rw [run_eq_no_refresh env n m a c w hA hc hC hw ht]
        simp
  · intro q q2 hq
    simp only [resolve_rules]
    congr 1
    exact List.map_congr_left hq

/-- C8 witness: with tag sequence `["Bond", "Storytelling"]` the Writer
receives the two rule texts joined with the fixed separator in selection
order, and a second resolution against an agreeing lookup is identical. -/
theorem writer_guidance_joined_in_tag_order_witness :
    (respond_to_girl pair_env "Jane 25" "hej").events.get? 3 =
      some (.writerCall (writer_args pair_env ["Bond", "Storytelling"] "hej")) ∧
    (writer_args pair_env ["Bond", "Storytelling"] "hej").rules =
      String.intercalate "\n###\n- " (["Bond", "Storytelling"].map pair_env.query_rule) ∧
    (writer_args pair_env ["Bond", "Storytelling"] "hej").rules =
      "Ask about her day.\n###\n- Tell a vivid story." ∧
    resolve_rules demo_rules ["Bond", "Storytelling"] =
      resolve_rules demo_rules2 ["Bond", "Storytelling"] := by
  have h := writer_guidance_joined_in_tag_order pair_env "Jane 25" "hej"
    ⟨"We are on step 1.", "step1", ""⟩ ⟨"mix tactics", ["Bond", "Storytelling"]⟩ rfl rfl rfl
  exact ⟨h.1, h.2.1, rfl, h.2.2 demo_rules demo_rules2 (by decide)⟩

/-- C9: a completed non-contact cycle returns exactly the ordered message
list the Writer produced, unmodified, whether or not the summary-refresh
step ran; a contact-exit cycle never returns messages, and returns `None`
whenever it completes (which requires the push credential to be
configured). -/
theorem toplevel_returns_writer_messages (env : Env) (n m : String)
    (a : AnalyzerOutput) (c : CommanderOutput) (w : WriterOutput)
    (hA : env.analyzer 0 (get_record env.store n) m = .ok a)
    (hc : a.contact = "")
    (hC : env.commander a.future_step a.summary m = .ok c)
    (hW : (invoke_chain (fun i => env.writer i (writer_args env c.tags m))).outcome = .ok w) :
    (¬("Attractive guy image" ∈ c.tags ∨ "Storytelling" ∈ c.tags) →
      (respond_to_girl env n m).result = .ok (some w.message)) ∧
    (("Attractive guy image" ∈ c.tags ∨ "Storytelling" ∈ c.tags) →
      ∀ a2 : AnalyzerOutput,
        env.analyzer 1 a.summary ("Conversator: " ++ pyListRepr w.message) = .ok a2 →
        (respond_to_girl env n m).result = .ok (some w.message)) ∧
    (∀ (env2 : Env) (n2 m2 : String) (a2 : AnalyzerOutput),
      env2.analyzer 0 (get_record env2.store n2) m2 = .ok a2 →
      a2.contact ≠ "" →
      (∀ msgs : List String, (respond_to_girl env2 n2 m2).result ≠ .ok (some msgs)) ∧
      (∀ k : String, env2.config.pushbullet_key = some k →
        (respond_to_girl env2 n2 m2).result = .ok none)) := by
  refine ⟨?_, ?_, ?_⟩
  · intro ht
    rw [run_eq_no_refresh env n m a c w hA hc hC hW ht]
  · intro ht a2 hA2
    rw [run_eq_refresh_ok env n m a c w a2 hA hc hC hW ht hA2]
  · intro env2 n2 m2 a2 hA2 hc2
    constructor
    · intro msgs
      cases hk : env2.config.pushbullet_key with
      | none => rw [run_eq_contact_no_key env2 n2 m2 a2 hA2 hc2 hk]; simp
      | some k => rw [run_eq_contact_with_key env2 n2 m2 a2 k hA2 hc2 hk]; simp
    · intro k hk
      rw [run_eq_contact_with_key env2 n2 m2 a2 k hA2 hc2 hk]

/-- C9 witness: two completed cycles (with and without summary refresh)
each return exactly the Writer's message list, and a contact-exit cycle
with the push credential configured returns `None` and never a message
list. -/
theorem toplevel_returns_writer_messages_witness :
    (respond_to_girl happy_env "Jane 25" "hej").result =
      .ok (some ["Hey, how was your day?"]) ∧
    (respond_to_girl story_env "Jane 25" "hej").result =
      .ok (some ["Hey, how was your day?"]) ∧
    (respond_to_girl with_push_env "Jane 25" "hej").result ≠
      .ok (some ["Hey, how was your day?"]) ∧
    (respond_to_girl with_push_env "Jane 25" "hej").result = .ok none := by
  have h1 := toplevel_returns_writer_messages happy_env "Jane 25" "hej"
    ⟨"We are on step 1.", "step1", ""⟩ ⟨"build rapport first", ["Bond"]⟩
    ⟨"friendly reply", ["Hey, how was your day?"]⟩ rfl rfl rfl rfl
  have h2 := toplevel_returns_writer_messages story_env "Jane 25" "hej"
    ⟨"We are on step 1.", "step1", ""⟩ ⟨"tell a story", ["Storytelling"]⟩
    ⟨"friendly reply", ["Hey, how was your day?"]⟩ rfl rfl rfl rfl
  have h3 := h1.2.2 with_push_env "Jane 25" "hej"
    ⟨"We are on step 1.", "step1", "Instagram jane_doe"⟩ rfl (by decide)
  exact ⟨h1.1 (by decide),
    h2.2.1 (by decide) ⟨"We are on step 1. One story told.", "step1", ""⟩ rfl,
    h3.1 ["Hey, how was your day?"], h3.2 "pb-key" rfl⟩

end TinderGPT
